import Mathlib

/-!
# Verification development for the SWApi Azure function app

Shallow embedding of `src/function_app.py` (and the schema facts of
`src/models.py` that it relies on) together with proofs about the claims
of the natural-language specification.

Modelling conventions:

* Python floats are modelled as exact rationals (`ℚ`); `float(s)` is modelled
  on finite decimal/scientific notation (`"1_000"` grouping underscores and
  the `inf`/`nan` tokens are not modelled, none of which occur in the data
  handled here).  `round(x, 2)` is modelled as exact half-to-even rounding at
  two decimal places.
* Python's dynamically typed column values are the inductive `PyVal`
  (`None`, `str`, `int`), matching the schema of `models.py` where columns
  are strings, integers, or SQL `NULL`.
* Exceptions are modelled with `Except PyErr`; the request boundary
  `try/except` of each handler converts an error into a 500 response, as in
  the source.  Exception message strings are abstracted to the exception
  class name.
* Python `set` iteration order is unspecified; it is modelled as
  first-occurrence order (`pySet`).  No theorem below depends on a tie-break
  that this choice influences.
* String helpers (`split`, `strip`, `replace`) are re-implemented by
  structural recursion over `List Char` so that concrete evaluation is
  kernel-reducible; they agree with the Python methods on the single-character
  separators used by the source.
-/

namespace SWApi

section Main

attribute [local semireducible] Rat.add Rat.mul Rat.inv Rat.sub Rat.ofScientific

instance {ε α : Type} [DecidableEq ε] [DecidableEq α] : DecidableEq (Except ε α) := fun a b =>
  match a, b with
  | .ok x, .ok y =>
      if h : x = y then isTrue (by rw [h]) else isFalse (by intro hc; cases hc; exact h rfl)
  | .error x, .error y =>
      if h : x = y then isTrue (by rw [h]) else isFalse (by intro hc; cases hc; exact h rfl)
  | .ok _, .error _ => isFalse (by intro hc; cases hc)
  | .error _, .ok _ => isFalse (by intro hc; cases hc)

/-- Split a character list at every occurrence of `sep`; models Python
`s.split(sep)` for a single-character separator (`"".split(sep) == [""]`). -/
def splitChar (sep : Char) : List Char → List (List Char)
  | [] => [[]]
  | c :: rest =>
    match splitChar sep rest with
    | [] => [[c]]
    | g :: gs => if c = sep then [] :: g :: gs else (c :: g) :: gs

/-- Remove every occurrence of a character; models `s.replace(c, "")`. -/
def removeChar (c : Char) (cs : List Char) : List Char := cs.filter (fun d => d ≠ c)

/-- Strip leading and trailing whitespace; models Python `s.strip()`. -/
def pyStrip (cs : List Char) : List Char :=
  ((cs.dropWhile Char.isWhitespace).reverse.dropWhile Char.isWhitespace).reverse

/-- `str.strip()` lifted to `String`. -/
def pyStripStr (s : String) : String := String.mk (pyStrip s.data)

/-- Value of a digit string (most significant first). -/
def digitsToNat (cs : List Char) : Nat := cs.foldl (fun a c => a * 10 + (c.toNat - 48)) 0

/-- Signed digit string (an optional `+`/`-` followed by at least one digit);
models the grammar accepted by Python `int(s)` after stripping. -/
def parseSignedDigits (cs : List Char) : Option Int :=
  match cs with
  | '+' :: rest =>
      if !rest.isEmpty && rest.all Char.isDigit then some (digitsToNat rest : Int) else none
  | '-' :: rest =>
      if !rest.isEmpty && rest.all Char.isDigit then some (-(digitsToNat rest : Int)) else none
  | _ => if !cs.isEmpty && cs.all Char.isDigit then some (digitsToNat cs : Int) else none

/-- Unsigned decimal mantissa `ddd`, `ddd.ddd`, `.ddd` or `ddd.`
(at least one digit in total), as an exact rational. -/
def parseMantissa (cs : List Char) : Option ℚ :=
  match splitChar '.' cs with
  | [i] =>
      if !i.isEmpty && i.all Char.isDigit then some ((digitsToNat i : ℚ)) else none
  | [i, f] =>
      if (!i.isEmpty || !f.isEmpty) && i.all Char.isDigit && f.all Char.isDigit then
        some ((digitsToNat i : ℚ) + (digitsToNat f : ℚ) / ((10 : ℚ) ^ f.length))
      else none
  | _ => none

/-- Model of Python `float(s)` on finite decimal/scientific notation:
optional surrounding whitespace, optional sign, decimal mantissa, optional
`e`/`E` exponent.  Returns `none` where `float` raises `ValueError`. -/
def parseFloatChars (cs0 : List Char) : Option ℚ :=
  let cs := pyStrip cs0
  let sgnBody : ℚ × List Char :=
    match cs with
    | '+' :: rest => (1, rest)
    | '-' :: rest => (-1, rest)
    | _ => (1, cs)
  match splitChar 'e' (sgnBody.2.map (fun c => if c = 'E' then 'e' else c)) with
  | [m] => (parseMantissa m).map (fun q => sgnBody.1 * q)
  | [m, ex] =>
      match parseMantissa m, parseSignedDigits ex with
      | some q, some e => some (sgnBody.1 * q * (10 : ℚ) ^ e)
      | _, _ => none
  | _ => none

/-- Model of Python `int(s)` (used for release years); `none` where `int`
raises `ValueError`. -/
def parseInt? (s : String) : Option Int := parseSignedDigits (pyStrip s.data)

/-- A dynamically typed column value, as the Python code sees it:
SQL `NULL`, a string column, or an integer column. -/
inductive PyVal where
  | vNone
  | vStr (s : String)
  | vInt (n : Int)
  deriving DecidableEq, Repr

/-- The sentinel strings of the source's recurring membership test. -/
def sentinelStrs : List String := ["unknown", "n/a", "none", ""]

/-- Python `value in ["unknown", "n/a", "none", None, ""]` (exact,
case-sensitive comparison, as in the source). -/
def PyVal.isSentinel : PyVal → Bool
  | .vNone => true
  | .vStr s => sentinelStrs.contains s
  | .vInt _ => false

/-- Python truthiness of a column value. -/
def PyVal.truthy : PyVal → Bool
  | .vNone => false
  | .vStr s => !s.isEmpty
  | .vInt n => n ≠ 0

/-- `safe_float` of `function_app.py`:
sentinel membership check, then `float(value.replace(",", ""))`, with
`ValueError` (malformed string) and `AttributeError` (non-string `.replace`)
both caught and turned into `None`.  Totality of this Lean function is the
"never raises to the caller" property. -/
def safe_float (value : PyVal) : Option ℚ :=
  if value.isSentinel then none
  else
    match value with
    | .vStr s => parseFloatChars (removeChar ',' s.data)
    | _ => none

/-- `calculate_average` of `function_app.py`: mean of the non-`None`
entries, `None` when there are none. -/
def calculate_average (values : List (Option ℚ)) : Option ℚ :=
  let valid := values.filterMap id
  if valid.isEmpty then none else some (valid.sum / (valid.length : ℚ))

/-- Round to the nearest integer, halves to the even neighbour
(Python `round` tie-breaking, exact on rationals). -/
def roundHalfEven (q : ℚ) : ℤ :=
  let f := ⌊q⌋
  if q - (f : ℚ) < 1 / 2 then f
  else if (1 : ℚ) / 2 < q - (f : ℚ) then f + 1
  else if f % 2 = 0 then f else f + 1

/-- Python `round(x, 2)`, modelled exactly on rationals. -/
def pyRound2 (q : ℚ) : ℚ := ((roundHalfEven (q * 100) : ℚ)) / 100

/-- Python exception classes raised inside the statistics computation. -/
inductive PyErr where
  | valueError
  | attributeError
  | zeroDivisionError
  deriving DecidableEq, Repr

/-- Exception class name, standing in for `str(e)` (message text abstracted). -/
def PyErr.className : PyErr → String
  | .valueError => "ValueError"
  | .attributeError => "AttributeError"
  | .zeroDivisionError => "ZeroDivisionError"

/-- Python `max(l, key=key)` on a nonempty list: scans left to right and
replaces the champion only on a strictly greater key, hence returns the
first maximal element. -/
def pyMaxByList {α β : Type} [LinearOrder β] (key : α → β) : List α → Option α
  | [] => none
  | x :: xs => some (xs.foldl (fun best y => if key best < key y then y else best) x)

/-- Python `min(l, key=key)` on a nonempty list (first minimal element). -/
def pyMinByList {α β : Type} [LinearOrder β] (key : α → β) : List α → Option α
  | [] => none
  | x :: xs => some (xs.foldl (fun best y => if key y < key best then y else best) x)

/-- Python `max(l, key=key)`, raising `ValueError` on an empty sequence. -/
def pyMaxBy {α β : Type} [LinearOrder β] (key : α → β) (l : List α) : Except PyErr α :=
  match pyMaxByList key l with
  | some r => .ok r
  | none => .error .valueError

/-- Python `min(l, key=key)`, raising `ValueError` on an empty sequence. -/
def pyMinBy {α β : Type} [LinearOrder β] (key : α → β) (l : List α) : Except PyErr α :=
  match pyMinByList key l with
  | some r => .ok r
  | none => .error .valueError

/-- `max(l) if l else None` — the guarded maximum used throughout. -/
def pyMaxList {β : Type} [LinearOrder β] (l : List β) : Option β := pyMaxByList id l

/-- `min(l) if l else None` — the guarded minimum used throughout. -/
def pyMinList {β : Type} [LinearOrder β] (l : List β) : Option β := pyMinByList id l

/-- Python `v or d` where `v` is an optional float: `v` when present and
nonzero (truthy), else `d`.  Note that a present `0.0` falls through to `d`. -/
def pyOrQ (v : Option ℚ) (d : ℚ) : ℚ :=
  match v with
  | some x => if x = 0 then d else x
  | none => d

/-- Python `v or float("inf")` where `v` is an optional float, valued in
`WithTop ℚ` (`⊤` = `inf`).  A present `0.0` falls through to `inf`. -/
def pyOrTop (v : Option ℚ) : WithTop ℚ :=
  match v with
  | some x => if x = 0 then ⊤ else ((x : ℚ) : WithTop ℚ)
  | none => ⊤

/-- Python `set(l)` modelled as first-occurrence deduplication
(set iteration order is unspecified in CPython; no theorem below depends on
this choice). -/
def pySetAux {α : Type} [DecidableEq α] (seen : List α) : List α → List α
  | [] => []
  | x :: xs => if x ∈ seen then pySetAux seen xs else x :: pySetAux (seen ++ [x]) xs

/-- `set(l)` as a deduplicated list in first-occurrence order. -/
def pySet {α : Type} [DecidableEq α] (l : List α) : List α := pySetAux [] l

/-- Python `l.count(x)`. -/
def countOcc {α : Type} [DecidableEq α] (l : List α) (x : α) : Nat :=
  l.countP (fun y => y = x)

/-- JSON-serialisable values: the shape of every response body built by
`json.dumps` in the source (numbers carried exactly as rationals). -/
inductive JVal where
  | jNull
  | jNum (q : ℚ)
  | jStr (s : String)
  | jArr (xs : List JVal)
  | jObj (kvs : List (String × JVal))
  deriving Repr

/-- Lookup of a key in a JSON object. -/
def jGet (v : JVal) (k : String) : Option JVal :=
  match v with
  | .jObj kvs => kvs.lookup k
  | _ => none

/-- Path lookup through nested JSON objects. -/
def jGetAt : Option JVal → List String → Option JVal
  | v, [] => v
  | some j, k :: ks => jGetAt (jGet j k) ks
  | none, _ => none

/-- JSON image of a column value under `json.dumps`. -/
def pyToJ : PyVal → JVal
  | .vNone => .jNull
  | .vStr s => .jStr s
  | .vInt n => .jNum ((n : ℤ) : ℚ)

/-- JSON dictionary key for a column value (`json.dumps` stringifies
non-string keys; in the data at hand keys are always strings). -/
def pyKeyStr : PyVal → String
  | .vNone => "null"
  | .vStr s => s
  | .vInt n => toString n

/-- `x if x is not None else null`, for optional numbers. -/
def jOptNum : Option ℚ → JVal
  | some q => .jNum q
  | none => .jNull

/-- Same for optional integers (release years). -/
def jOptInt : Option ℤ → JVal
  | some n => .jNum ((n : ℤ) : ℚ)
  | none => .jNull

/-- One stored entity row: the primary key, the scalar column values, and
the related-row id lists of the ORM relationships (`models.py`).  A column
not present in `fields` reads as SQL `NULL`, matching `getattr`. -/
structure Row where
  id : Nat
  fields : List (String × PyVal)
  rels : List (String × List Nat)
  deriving DecidableEq, Repr

/-- `getattr(row, k)` for a scalar column. -/
def Row.get (r : Row) (k : String) : PyVal := (r.fields.lookup k).getD .vNone

/-- `getattr(row, k)` for a relationship: the ids of the related rows. -/
def Row.rel (r : Row) (k : String) : List Nat := (r.rels.lookup k).getD []

/-- The six entity types (`models.py`). -/
inductive Model where
  | film | person | planet | species | vehicle | starship
  deriving DecidableEq, Repr

/-- `get_model_class` of `function_app.py`: the route-string dispatch table. -/
def get_model_class (route : String) : Option Model :=
  if route = "films" then some .film
  else if route = "people" then some .person
  else if route = "planets" then some .planet
  else if route = "species" then some .species
  else if route = "vehicles" then some .vehicle
  else if route = "starships" then some .starship
  else none

/-- The relational store: one table (row list) per entity type. -/
structure Store where
  films : List Row
  people : List Row
  planets : List Row
  species : List Row
  vehicles : List Row
  starships : List Row
  deriving DecidableEq, Repr

/-- Table of a given entity type. -/
def Store.table (s : Store) : Model → List Row
  | .film => s.films
  | .person => s.people
  | .planet => s.planets
  | .species => s.species
  | .vehicle => s.vehicles
  | .starship => s.starships

/-- Replace the table of a given entity type. -/
def Store.setTable (s : Store) : Model → List Row → Store
  | .film, l => { s with films := l }
  | .person, l => { s with people := l }
  | .planet, l => { s with planets := l }
  | .species, l => { s with species := l }
  | .vehicle, l => { s with vehicles := l }
  | .starship, l => { s with starships := l }

/-- The store with no rows at all. -/
def emptyStore : Store := ⟨[], [], [], [], [], []⟩

/-- An HTTP response: status code and optional JSON body. -/
structure HttpResponse where
  status : Nat
  body : Option JVal
  deriving Repr

/-- The 404 response of every handler for an unknown route. -/
def invalidRouteResponse : HttpResponse :=
  ⟨404, some (.jObj [("error", .jStr "Invalid route")])⟩

/-- The 404 response for a missing row id. -/
def notFoundResponse : HttpResponse :=
  ⟨404, some (.jObj [("error", .jStr "Not found")])⟩

/-- The 500 response produced by the request-boundary `except Exception`. -/
def errorResponse (e : PyErr) : HttpResponse :=
  ⟨500, some (.jObj [("error", .jStr e.className)])⟩

/-- `to_dict(obj, include_relationships=False)`: every column value plus a
`{rel}_ids` id list per relationship. -/
def to_dict (r : Row) : JVal :=
  .jObj ((("id", JVal.jNum ((r.id : ℕ) : ℚ)) :: r.fields.map (fun kv => (kv.1, pyToJ kv.2)))
    ++ r.rels.map (fun kr => (kr.1 ++ "_ids", JVal.jArr (kr.2.map (fun i => JVal.jNum ((i : ℕ) : ℚ))))))

/-- `get_all` handler: the full extent of the routed type, 200, store untouched. -/
def get_all (route : String) (s : Store) : HttpResponse × Store :=
  match get_model_class route with
  | none => (invalidRouteResponse, s)
  | some m => (⟨200, some (.jArr ((s.table m).map to_dict))⟩, s)

/-- `get_by_id` handler: single row or `Not found`, store untouched. -/
def get_by_id (route : String) (id : Nat) (s : Store) : HttpResponse × Store :=
  match get_model_class route with
  | none => (invalidRouteResponse, s)
  | some m =>
    match (s.table m).find? (fun r => r.id = id) with
    | none => (notFoundResponse, s)
    | some r => (⟨200, some (to_dict r)⟩, s)

/-- Autoincrement primary key assigned by the storage layer on insert:
one more than the largest id in the table. -/
def freshId (rows : List Row) : Nat :=
  (rows.map (fun r => r.id)).foldr (fun a b => max a b) 0 + 1

/-- `create` handler: `model_class(**data)`, insert, commit, refresh,
201 with the created document. -/
def create (route : String) (data : List (String × PyVal)) (s : Store) :
    HttpResponse × Store :=
  match get_model_class route with
  | none => (invalidRouteResponse, s)
  | some m =>
    let rows := s.table m
    let newRow : Row := ⟨freshId rows, data, []⟩
    (⟨201, some (to_dict newRow)⟩, s.setTable m (rows ++ [newRow]))

/-- `setattr` loop of the `update` handler folded over the JSON body. -/
def assocSet (fs : List (String × PyVal)) (k : String) (v : PyVal) :
    List (String × PyVal) :=
  match fs with
  | [] => [(k, v)]
  | (k', v') :: rest => if k' = k then (k, v) :: rest else (k', v') :: assocSet rest k v

/-- `update` handler: find the row, overwrite the submitted fields, 200. -/
def update (route : String) (id : Nat) (data : List (String × PyVal)) (s : Store) :
    HttpResponse × Store :=
  match get_model_class route with
  | none => (invalidRouteResponse, s)
  | some m =>
    match (s.table m).find? (fun r => r.id = id) with
    | none => (notFoundResponse, s)
    | some item =>
      let item' : Row :=
        ⟨item.id, data.foldl (fun fs kv => assocSet fs kv.1 kv.2) item.fields, item.rels⟩
      (⟨200, some (to_dict item')⟩,
        s.setTable m ((s.table m).map (fun r => if r.id = id then item' else r)))

/-- `delete` handler: remove the row, 204 with empty body. -/
def delete (route : String) (id : Nat) (s : Store) : HttpResponse × Store :=
  match get_model_class route with
  | none => (invalidRouteResponse, s)
  | some m =>
    match (s.table m).find? (fun r => r.id = id) with
    | none => (notFoundResponse, s)
    | some _ => (⟨204, none⟩, s.setTable m ((s.table m).filter (fun r => r.id ≠ id)))

/-- `value.split(sep)` on a column value; `AttributeError` when the value is
not a string (e.g. SQL `NULL`), exactly as in CPython. -/
def PyVal.split (v : PyVal) (sep : Char) : Except PyErr (List String) :=
  match v with
  | .vStr s => .ok ((splitChar sep s.data).map (fun cs => String.mk cs))
  | _ => .error .attributeError

/-- `round(calculate_average(valid), 2) if valid else None` — the average
entry of every numeric statistics block. -/
def avgEntry (valid : List ℚ) : JVal :=
  if valid.isEmpty then .jNull
  else jOptNum ((calculate_average (valid.map some)).map pyRound2)

/-- One numeric statistics block of the source
(`tallest_person`/`shortest_person`, `largest_cargo`/`smallest_cargo`, …):
extremum owners chosen by `max(rows, key=safe_float(…) or 0)` and
`min(rows, key=safe_float(…) or inf)`, with the guarded extreme values and
average of the sanitized present values. -/
def numBlock (rows : List Row) (field : String)
    (maxLabel minLabel valLabel avgLabel : String) :
    Except PyErr (List (String × JVal)) := do
  let vals := rows.map (fun r => safe_float (r.get field))
  let valid := vals.filterMap id
  let top ← pyMaxBy (fun x => pyOrQ (safe_float (x.get field)) 0) rows
  let bot ← pyMinBy (fun x => pyOrTop (safe_float (x.get field))) rows
  pure [
    (maxLabel, .jObj [("name", pyToJ (top.get "name")), (valLabel, jOptNum (pyMaxList valid))]),
    (minLabel, .jObj [("name", pyToJ (bot.get "name")), (valLabel, jOptNum (pyMinList valid))]),
    (avgLabel, avgEntry valid)]

/-- `[t.strip() for r in rows for t in getattr(r, field).split(',')
      if getattr(r, field) not in sentinels]` —
the comma-splitting comprehension of the planets branch.  The split is
evaluated before the (whole-field) sentinel filter, so a `NULL` field raises
`AttributeError`; sentinel tokens inside a non-sentinel list are kept. -/
def splitFieldSentinel (rows : List Row) (field : String) :
    Except PyErr (List String) :=
  rows.foldlM (fun acc r => do
    let toks ← (r.get field).split ','
    if (r.get field).isSentinel then pure acc
    else pure (acc ++ toks.map pyStripStr)) []

/-- `[t.strip() for r in rows if getattr(r, field) for t in
      getattr(r, field).split(',')]` —
the comma-splitting comprehension of the manufacturers/producers lists.
Only falsy fields are skipped: a field equal to `"unknown"` is split. -/
def splitFieldTruthy (rows : List Row) (field : String) :
    Except PyErr (List String) :=
  rows.foldlM (fun acc r =>
    if (r.get field).truthy then do
      let toks ← (r.get field).split ','
      pure (acc ++ toks.map pyStripStr)
    else pure acc) []

/-- `parse_colors` of the species branch: empty for a falsy or whole-field
sentinel value, otherwise all trimmed comma-separated tokens. -/
def parse_colors (v : PyVal) : Except PyErr (List String) :=
  if !v.truthy || v.isSentinel then .ok []
  else do
    let toks ← v.split ','
    pure (toks.map pyStripStr)

/-- All color tokens of a species column across the collection. -/
def allColors (rows : List Row) (field : String) : Except PyErr (List String) :=
  rows.foldlM (fun acc r => do
    let cs ← parse_colors (r.get field)
    pure (acc ++ cs)) []

/-- `{v: l.count(v) for v in set(l)}` on string tokens. -/
def distOf (l : List String) : List (String × JVal) :=
  (pySet l).map (fun v => (v, JVal.jNum ((countOcc l v : ℕ) : ℚ)))

/-- `max(set(l), key=l.count) if l else None` on string tokens. -/
def mostCommon (l : List String) : JVal :=
  match pyMaxByList (fun v => countOcc l v) (pySet l) with
  | some v => .jStr v
  | none => .jNull

/-- `{v: l.count(v) for v in set(l)}` on raw column values. -/
def distOfV (l : List PyVal) : List (String × JVal) :=
  (pySet l).map (fun v => (pyKeyStr v, JVal.jNum ((countOcc l v : ℕ) : ℚ)))

/-- `max(set(l), key=l.count) if l else None` on raw column values. -/
def mostCommonV (l : List PyVal) : JVal :=
  match pyMaxByList (fun v => countOcc l v) (pySet l) with
  | some v => pyToJ v
  | none => .jNull

/-- The categorical values of a column, whole-field sentinels filtered out
(`[getattr(r, field) for r in rows if getattr(r, field) not in sentinels]`). -/
def catValues (rows : List Row) (field : String) : List PyVal :=
  rows.filterMap (fun r => if (r.get field).isSentinel then none else some (r.get field))

/-- `episode_stats` of the films branch: `safe_float(film.episode_id)` per
film (an `Integer` column), count / guarded min / guarded max of the
non-`None` results. -/
def episodeStatsOf (films : List Row) : JVal :=
  let episodes := films.map (fun f => safe_float (f.get "episode_id"))
  let valid_episodes := episodes.filterMap id
  .jObj [
    ("total_episodes", .jNum ((valid_episodes.length : ℕ) : ℚ)),
    ("earliest_episode", jOptNum (pyMinList valid_episodes)),
    ("latest_episode", jOptNum (pyMaxList valid_episodes))]

/-- `[int(film.release_date.split('-')[0]) for film in films if
      film.release_date]`; a malformed year raises `ValueError`. -/
def releaseYears (films : List Row) : Except PyErr (List ℤ) :=
  films.foldlM (fun acc f =>
    if (f.get "release_date").truthy then do
      let parts ← (f.get "release_date").split '-'
      match parseInt? (parts.headD "") with
      | some y => pure (acc ++ [y])
      | none => .error .valueError
    else pure acc) []

/-- `release_stats` of the films branch. -/
def releaseStatsOf (years : List ℤ) : JVal :=
  .jObj [
    ("earliest_year", jOptInt (pyMinList years)),
    ("latest_year", jOptInt (pyMaxList years)),
    ("years_span",
      match pyMaxList years, pyMinList years with
      | some mx, some mn => .jNum (((mx - mn : ℤ) : ℚ))
      | _, _ => .jNull)]

/-- One `content_stats` sub-block of the films branch: unguarded
`max`/`min` over the per-film related-row counts (raises `ValueError` when
the collection is empty), rounded average, distinct related-row count. -/
def contentBlock (films : List Row) (relKey : String) : Except PyErr JVal := do
  let counts : List ℕ := films.map (fun f => (f.rel relKey).length)
  let mx ← pyMaxBy id counts
  let mn ← pyMinBy id counts
  let avg ←
    if counts.length = 0 then Except.error PyErr.zeroDivisionError
    else pure (pyRound2 (((counts.sum : ℕ) : ℚ) / ((counts.length : ℕ) : ℚ)))
  pure (.jObj [
    ("max_count", .jNum ((mx : ℕ) : ℚ)),
    ("min_count", .jNum ((mn : ℕ) : ℚ)),
    ("avg_count", .jNum avg),
    ("total_unique",
      .jNum (((pySet (films.flatMap (fun f => f.rel relKey))).length : ℕ) : ℚ))])

/-- One `films_by_content` sub-block: title of `max(films, key=len(rel))`
and the maximal count (both raise `ValueError` on an empty collection). -/
def mostBlock (films : List Row) (relKey : String) : Except PyErr JVal := do
  let top ← pyMaxBy (fun f => (f.rel relKey).length) films
  let mx ← pyMaxBy id (films.map (fun f => (f.rel relKey).length))
  pure (.jObj [("title", pyToJ (top.get "title")), ("count", .jNum ((mx : ℕ) : ℚ))])

/-- The `route == "films"` branch of `get_statistics`. -/
def filmsBranch (films : List Row) : Except PyErr (List (String × JVal)) := do
  let years ← releaseYears films
  let directors := films.filterMap
    (fun f => if (f.get "director").truthy then some (f.get "director") else none)
  let producers ← splitFieldTruthy films "producer"
  let chars ← contentBlock films "characters"
  let plans ← contentBlock films "planets"
  let specs ← contentBlock films "species"
  let vehs ← contentBlock films "vehicles"
  let ships ← contentBlock films "starships"
  let mc ← mostBlock films "characters"
  let mp ← mostBlock films "planets"
  let ms ← mostBlock films "species"
  let mv ← mostBlock films "vehicles"
  let msh ← mostBlock films "starships"
  pure [
    ("episode_stats", episodeStatsOf films),
    ("release_stats", releaseStatsOf years),
    ("content_stats", .jObj [
      ("characters", chars), ("planets", plans), ("species", specs),
      ("vehicles", vehs), ("starships", ships)]),
    ("production_stats", .jObj [
      ("unique_directors", .jNum (((pySet directors).length : ℕ) : ℚ)),
      ("directors", .jArr ((pySet directors).map pyToJ)),
      ("unique_producers", .jNum (((pySet producers).length : ℕ) : ℚ)),
      ("producers", .jArr ((pySet producers).map JVal.jStr))]),
    ("films_by_content", .jObj [
      ("most_characters", mc), ("most_planets", mp), ("most_species", ms),
      ("most_vehicles", mv), ("most_starships", msh)])]

/-- The `"{n}/{total} records"` data-availability string. -/
def availabilityStr (n total : Nat) : String :=
  toString n ++ "/" ++ toString total ++ " records"

/-- The `route == "people"` branch of `get_statistics`. -/
def peopleBranch (people : List Row) (total_count : Nat) :
    Except PyErr (List (String × JVal)) := do
  let heights := people.map (fun p => safe_float (p.get "height"))
  let valid_heights := heights.filterMap id
  let masses := people.map (fun p => safe_float (p.get "mass"))
  let valid_masses := masses.filterMap id
  let genders := catValues people "gender"
  let gender_distribution := (pySet genders).map (fun g => (g, countOcc genders g))
  let hBlock ← numBlock people "height" "tallest_person" "shortest_person" "height" "average_height"
  let mBlock ← numBlock people "mass" "heaviest_person" "lightest_person" "mass" "average_mass"
  pure [
    ("height_stats", .jObj (hBlock ++
      [("height_data_availability", .jStr (availabilityStr valid_heights.length total_count))])),
    ("mass_stats", .jObj (mBlock ++
      [("mass_data_availability", .jStr (availabilityStr valid_masses.length total_count))])),
    ("gender_stats", .jObj [
      ("distribution",
        .jObj (gender_distribution.map (fun gc => (pyKeyStr gc.1, JVal.jNum ((gc.2 : ℕ) : ℚ))))),
      ("most_common",
        match pyMaxByList (fun gc => gc.2) gender_distribution with
        | some gc => pyToJ gc.1
        | none => .jNull)])]

/-- The `route == "planets"` branch of `get_statistics`. -/
def planetsBranch (planets : List Row) : Except PyErr (List (String × JVal)) := do
  let climates ← splitFieldSentinel planets "climate"
  let terrains ← splitFieldSentinel planets "terrain"
  let sizeB ← numBlock planets "diameter" "largest_planet" "smallest_planet" "diameter" "average_diameter"
  let popB ← numBlock planets "population" "most_populated" "least_populated" "population" "average_population"
  pure [
    ("size_stats", .jObj sizeB),
    ("population_stats", .jObj popB),
    ("environment_stats", .jObj [
      ("unique_climates", .jNum (((pySet climates).length : ℕ) : ℚ)),
      ("most_common_climate", mostCommon climates),
      ("unique_terrains", .jNum (((pySet terrains).length : ℕ) : ℚ)),
      ("most_common_terrain", mostCommon terrains)])]

/-- The `manufacturer_stats` block of the starships/vehicles branches. -/
def manufacturerBlock (ms : List String) : JVal :=
  .jObj [
    ("unique_manufacturers", .jNum (((pySet ms).length : ℕ) : ℚ)),
    ("most_common", mostCommon ms),
    ("distribution", if ms.isEmpty then .jObj [] else .jObj (distOf ms))]

/-- The `class_stats` block of the starships/vehicles branches. -/
def classBlock (rows : List Row) (field : String) : JVal :=
  let vals := catValues rows field
  .jObj [
    ("unique_classes", .jNum (((pySet vals).length : ℕ) : ℚ)),
    ("most_common", mostCommonV vals),
    ("distribution", if vals.isEmpty then .jObj [] else .jObj (distOfV vals))]

/-- The `pilot_stats` block of the starships/vehicles branches. -/
def pilotBlock (rows : List Row) : Except PyErr JVal := do
  let top ← pyMaxBy (fun x => (x.rel "pilots").length) rows
  let mx ← pyMaxBy id (rows.map (fun r => (r.rel "pilots").length))
  pure (.jObj [
    ("most_pilots", .jObj [("name", pyToJ (top.get "name")), ("count", .jNum ((mx : ℕ) : ℚ))]),
    ("total_unique_pilots",
      .jNum (((pySet (rows.flatMap (fun r => r.rel "pilots"))).length : ℕ) : ℚ))])

/-- The `performance_stats` block of the starships branch
(hyperdrive: fastest = minimum rating; MGLT: fastest = maximum). -/
def perfBlock (rows : List Row) : Except PyErr JVal := do
  let validH := (rows.map (fun r => safe_float (r.get "hyperdrive_rating"))).filterMap id
  let validM := (rows.map (fun r => safe_float (r.get "MGLT"))).filterMap id
  let hFast ← pyMinBy (fun x => pyOrTop (safe_float (x.get "hyperdrive_rating"))) rows
  let hSlow ← pyMaxBy (fun x => pyOrQ (safe_float (x.get "hyperdrive_rating")) 0) rows
  let mFast ← pyMaxBy (fun x => pyOrQ (safe_float (x.get "MGLT")) 0) rows
  let mSlow ← pyMinBy (fun x => pyOrTop (safe_float (x.get "MGLT"))) rows
  pure (.jObj [
    ("hyperdrive", .jObj [
      ("fastest", .jObj [("name", pyToJ (hFast.get "name")), ("rating", jOptNum (pyMinList validH))]),
      ("slowest", .jObj [("name", pyToJ (hSlow.get "name")), ("rating", jOptNum (pyMaxList validH))]),
      ("average_rating", avgEntry validH)]),
    ("MGLT", .jObj [
      ("fastest", .jObj [("name", pyToJ (mFast.get "name")), ("mglt", jOptNum (pyMaxList validM))]),
      ("slowest", .jObj [("name", pyToJ (mSlow.get "name")), ("mglt", jOptNum (pyMinList validM))]),
      ("average_mglt", avgEntry validM)])])

/-- The `route == "starships"` branch of `get_statistics`. -/
def starshipsBranch (starships : List Row) : Except PyErr (List (String × JVal)) := do
  let manufacturers ← splitFieldTruthy starships "manufacturer"
  let speedB ← numBlock starships "max_atmosphering_speed" "fastest_ship" "slowest_ship" "speed" "average_speed"
  let cargoB ← numBlock starships "cargo_capacity" "largest_cargo" "smallest_cargo" "capacity" "average_cargo"
  let costB ← numBlock starships "cost_in_credits" "most_expensive" "least_expensive" "cost" "average_cost"
  let sizeB ← numBlock starships "length" "longest_ship" "shortest_ship" "length" "average_length"
  let crewB ← numBlock starships "crew" "largest_crew" "smallest_crew" "crew" "average_crew"
  let passB ← numBlock starships "passengers" "highest_capacity" "lowest_capacity" "passengers" "average_capacity"
  let perf ← perfBlock starships
  let pilots ← pilotBlock starships
  pure [
    ("speed_stats", .jObj speedB),
    ("cargo_stats", .jObj cargoB),
    ("cost_stats", .jObj costB),
    ("size_stats", .jObj sizeB),
    ("crew_stats", .jObj crewB),
    ("passenger_stats", .jObj passB),
    ("performance_stats", perf),
    ("manufacturer_stats", manufacturerBlock manufacturers),
    ("class_stats", classBlock starships "starship_class"),
    ("pilot_stats", pilots)]

/-- The `route == "vehicles"` branch of `get_statistics`. -/
def vehiclesBranch (vehicles : List Row) : Except PyErr (List (String × JVal)) := do
  let manufacturers ← splitFieldTruthy vehicles "manufacturer"
  let speedB ← numBlock vehicles "max_atmosphering_speed" "fastest_vehicle" "slowest_vehicle" "speed" "average_speed"
  let passB ← numBlock vehicles "passengers" "highest_capacity" "lowest_capacity" "passengers" "average_capacity"
  let costB ← numBlock vehicles "cost_in_credits" "most_expensive" "least_expensive" "cost" "average_cost"
  let sizeB ← numBlock vehicles "length" "longest_vehicle" "shortest_vehicle" "length" "average_length"
  let crewB ← numBlock vehicles "crew" "largest_crew" "smallest_crew" "crew" "average_crew"
  let pilots ← pilotBlock vehicles
  pure [
    ("speed_stats", .jObj speedB),
    ("passenger_stats", .jObj passB),
    ("cost_stats", .jObj costB),
    ("size_stats", .jObj sizeB),
    ("crew_stats", .jObj crewB),
    ("manufacturer_stats", manufacturerBlock manufacturers),
    ("class_stats", classBlock vehicles "vehicle_class"),
    ("pilot_stats", pilots)]

/-- `species.homeworld`: the planet row referenced by the `homeworld_id`
foreign key, or `None`. -/
def homeworldOf (planets : List Row) (s : Row) : Option Row :=
  match s.get "homeworld_id" with
  | .vInt n => planets.find? (fun p => ((p.id : ℕ) : ℤ) = n)
  | _ => none

/-- The `appearance_stats` sub-block for one color column. -/
def colorBlock (colors : List String) : JVal :=
  .jObj [
    ("unique_colors", .jNum (((pySet colors).length : ℕ) : ℚ)),
    ("most_common", mostCommon colors),
    ("all_colors", if colors.isEmpty then .jArr [] else .jArr ((pySet colors).map JVal.jStr))]

/-- The `route == "species"` branch of `get_statistics`. -/
def speciesBranch (species_list : List Row) (planets : List Row) (total_count : Nat) :
    Except PyErr (List (String × JVal)) := do
  let classifications := catValues species_list "classification"
  let designations := catValues species_list "designation"
  let all_skin_colors ← allColors species_list "skin_colors"
  let all_hair_colors ← allColors species_list "hair_colors"
  let all_eye_colors ← allColors species_list "eye_colors"
  let languages := catValues species_list "language"
  let species_with_homeworld := species_list.filter (fun s => (homeworldOf planets s).isSome)
  let hwNames := species_with_homeworld.filterMap
    (fun s => (homeworldOf planets s).map (fun p => p.get "name"))
  let heightB ← numBlock species_list "average_height" "tallest_species" "shortest_species" "height" "average_height"
  let lifeB ← numBlock species_list "average_lifespan" "longest_lived" "shortest_lived" "lifespan" "average_lifespan"
  let popTop ← pyMaxBy (fun x => (x.rel "people").length) species_list
  let popMax ← pyMaxBy id (species_list.map (fun s => (s.rel "people").length))
  let avgPop ←
    if species_list.length = 0 then Except.error PyErr.zeroDivisionError
    else pure (pyRound2
      (((species_list.map (fun s => (s.rel "people").length)).sum : ℚ) / (species_list.length : ℚ)))
  pure [
    ("height_stats", .jObj heightB),
    ("lifespan_stats", .jObj lifeB),
    ("classification_stats", .jObj [
      ("unique_classifications", .jNum (((pySet classifications).length : ℕ) : ℚ)),
      ("most_common", mostCommonV classifications),
      ("distribution",
        if classifications.isEmpty then .jObj [] else .jObj (distOfV classifications))]),
    ("designation_stats", .jObj [
      ("unique_designations", .jNum (((pySet designations).length : ℕ) : ℚ)),
      ("distribution",
        if designations.isEmpty then .jObj [] else .jObj (distOfV designations))]),
    ("appearance_stats", .jObj [
      ("skin_colors", colorBlock all_skin_colors),
      ("hair_colors", colorBlock all_hair_colors),
      ("eye_colors", colorBlock all_eye_colors)]),
    ("language_stats", .jObj [
      ("unique_languages", .jNum (((pySet languages).length : ℕ) : ℚ)),
      ("most_common", mostCommonV languages),
      ("all_languages", if languages.isEmpty then .jArr [] else .jArr ((pySet languages).map pyToJ))]),
    ("homeworld_stats", .jObj [
      ("species_with_homeworld", .jNum ((species_with_homeworld.length : ℕ) : ℚ)),
      ("species_without_homeworld",
        .jNum ((((total_count : ℤ) - (species_with_homeworld.length : ℤ)) : ℚ))),
      ("homeworld_distribution",
        if species_with_homeworld.isEmpty then .jObj []
        else .jObj ((pySet hwNames).map (fun nm => (pyKeyStr nm,
          JVal.jNum (((species_list.countP (fun s =>
            match homeworldOf planets s with
            | some p => p.get "name" = nm
            | none => false)) : ℕ) : ℚ)))))]),
    ("population_stats", .jObj [
      ("most_populated_species",
        .jObj [("name", pyToJ (popTop.get "name")), ("count", .jNum ((popMax : ℕ) : ℚ))]),
      ("average_population", .jNum avgPop)])]

/-- The `elif` chain over the route string inside `get_statistics`
(a valid route matching none of the branches would leave only the base
statistics, mirroring the source's fall-through). -/
def statsEntries (route : String) (store : Store) (total_count : Nat) :
    Except PyErr (List (String × JVal)) :=
  if route = "films" then filmsBranch store.films
  else if route = "people" then peopleBranch store.people total_count
  else if route = "planets" then planetsBranch store.planets
  else if route = "starships" then starshipsBranch store.starships
  else if route = "vehicles" then vehiclesBranch store.vehicles
  else if route = "species" then speciesBranch store.species store.planets total_count
  else .ok []

/-- `get_statistics` handler: route dispatch, base `total_count`, the
type-specific branch, and the request-boundary `try/except` converting any
raised exception into a 500 error document.  The store is only read. -/
def get_statistics (route : String) (store : Store) : HttpResponse × Store :=
  match get_model_class route with
  | none => (invalidRouteResponse, store)
  | some m =>
    let total_count := (store.table m).length
    match statsEntries route store total_count with
    | .ok entries =>
      (⟨200, some (.jObj (("total_count", JVal.jNum ((total_count : ℕ) : ℚ)) :: entries))⟩, store)
    | .error e => (errorResponse e, store)

/-! ## Helper lemmas -/

theorem maxFold_mem {α β : Type} [LinearOrder β] (key : α → β) :
    ∀ (l : List α) (acc : α),
      l.foldl (fun best y => if key best < key y then y else best) acc ∈ acc :: l := by
  intro l
  induction l with
  | nil => intro acc; simp
  | cons x xs ih =>
    intro acc
    have h := ih (if key acc < key x then x else acc)
    simp only [List.foldl_cons]
    rcases List.mem_cons.mp h with h1 | h1
    · rw [h1]
      by_cases hc : key acc < key x
      · simp [hc]
      · simp [hc]
    · simp [List.mem_cons]
      right; right; exact h1

theorem maxFold_ub {α β : Type} [LinearOrder β] (key : α → β) :
    ∀ (l : List α) (acc : α),
      key acc ≤ key (l.foldl (fun best y => if key best < key y then y else best) acc) ∧
      ∀ y ∈ l, key y ≤ key (l.foldl (fun best y => if key best < key y then y else best) acc) := by
  intro l
  induction l with
  | nil => intro acc; simp
  | cons x xs ih =>
    intro acc
    have h := ih (if key acc < key x then x else acc)
    have hacc : key acc ≤ key (if key acc < key x then x else acc) := by
      by_cases hc : key acc < key x
      · simp [hc]; exact le_of_lt hc
      · simp [hc]
    have hx : key x ≤ key (if key acc < key x then x else acc) := by
      by_cases hc : key acc < key x
      · simp [hc]
      · simp [hc]; exact le_of_not_lt hc
    refine ⟨le_trans hacc h.1, ?_⟩
    intro y hy
    rcases List.mem_cons.mp hy with h1 | h1
    · rw [h1]; exact le_trans hx h.1
    · exact h.2 y h1

theorem minFold_mem {α β : Type} [LinearOrder β] (key : α → β) :
    ∀ (l : List α) (acc : α),
      l.foldl (fun best y => if key y < key best then y else best) acc ∈ acc :: l := by
  intro l
  induction l with
  | nil => intro acc; simp
  | cons x xs ih =>
    intro acc
    have h := ih (if key x < key acc then x else acc)
    simp only [List.foldl_cons]
    rcases List.mem_cons.mp h with h1 | h1
    · rw [h1]
      by_cases hc : key x < key acc
      · simp [hc]
      · simp [hc]
    · simp [List.mem_cons]
      right; right; exact h1

theorem minFold_lb {α β : Type} [LinearOrder β] (key : α → β) :
    ∀ (l : List α) (acc : α),
      key (l.foldl (fun best y => if key y < key best then y else best) acc) ≤ key acc ∧
      ∀ y ∈ l, key (l.foldl (fun best y => if key y < key best then y else best) acc) ≤ key y := by
  intro l
  induction l with
  | nil => intro acc; simp
  | cons x xs ih =>
    intro acc
    have h := ih (if key x < key acc then x else acc)
    have hacc : key (if key x < key acc then x else acc) ≤ key acc := by
      by_cases hc : key x < key acc
      · simp [hc]; exact le_of_lt hc
      · simp [hc]
    have hx : key (if key x < key acc then x else acc) ≤ key x := by
      by_cases hc : key x < key acc
      · simp [hc]
      · simp [hc]; exact le_of_not_lt hc
    refine ⟨le_trans h.1 hacc, ?_⟩
    intro y hy
    rcases List.mem_cons.mp hy with h1 | h1
    · rw [h1]; exact le_trans h.1 hx
    · exact h.2 y h1

theorem pyMaxByList_spec {α β : Type} [LinearOrder β] {key : α → β} {l : List α} {r : α}
    (h : pyMaxByList key l = some r) : r ∈ l ∧ ∀ y ∈ l, key y ≤ key r := by
  cases l with
  | nil => cases h
  | cons x xs =>
    have hr : r = xs.foldl (fun best y => if key best < key y then y else best) x := by
      simpa [pyMaxByList] using h.symm
    subst hr
    refine ⟨maxFold_mem key xs x, ?_⟩
    intro y hy
    rcases List.mem_cons.mp hy with h1 | h1
    · rw [h1]; exact (maxFold_ub key xs x).1
    · exact (maxFold_ub key xs x).2 y h1

theorem pyMinByList_spec {α β : Type} [LinearOrder β] {key : α → β} {l : List α} {r : α}
    (h : pyMinByList key l = some r) : r ∈ l ∧ ∀ y ∈ l, key r ≤ key y := by
  cases l with
  | nil => cases h
  | cons x xs =>
    have hr : r = xs.foldl (fun best y => if key y < key best then y else best) x := by
      simpa [pyMinByList] using h.symm
    subst hr
    refine ⟨minFold_mem key xs x, ?_⟩
    intro y hy
    rcases List.mem_cons.mp hy with h1 | h1
    · rw [h1]; exact (minFold_lb key xs x).1
    · exact (minFold_lb key xs x).2 y h1

theorem pyMaxByList_isSome {α β : Type} [LinearOrder β] (key : α → β) {l : List α}
    (h : l ≠ []) : ∃ r, pyMaxByList key l = some r := by
  cases l with
  | nil => exact absurd rfl h
  | cons x xs => exact ⟨_, rfl⟩

theorem pyMinByList_isSome {α β : Type} [LinearOrder β] (key : α → β) {l : List α}
    (h : l ≠ []) : ∃ r, pyMinByList key l = some r := by
  cases l with
  | nil => exact absurd rfl h
  | cons x xs => exact ⟨_, rfl⟩

theorem pyMaxList_eq_some {β : Type} [LinearOrder β] {l : List β} {m : β}
    (hm : m ∈ l) (hub : ∀ x ∈ l, x ≤ m) : pyMaxList l = some m := by
  have hne : l ≠ [] := by intro hl; rw [hl] at hm; cases hm
  obtain ⟨r, hr⟩ := pyMaxByList_isSome (id : β → β) hne
  obtain ⟨hrm, hrub⟩ := pyMaxByList_spec hr
  have h1 : r ≤ m := hub r hrm
  have h2 : m ≤ r := hrub m hm
  rw [pyMaxList, hr, le_antisymm h1 h2]

theorem pyMinList_eq_some {β : Type} [LinearOrder β] {l : List β} {m : β}
    (hm : m ∈ l) (hlb : ∀ x ∈ l, m ≤ x) : pyMinList l = some m := by
  have hne : l ≠ [] := by intro hl; rw [hl] at hm; cases hm
  obtain ⟨r, hr⟩ := pyMinByList_isSome (id : β → β) hne
  obtain ⟨hrm, hrlb⟩ := pyMinByList_spec hr
  have h1 : m ≤ r := hlb r hrm
  have h2 : r ≤ m := hrlb m hm
  rw [pyMinList, hr, le_antisymm h2 h1]

theorem le_foldrMax_of_mem {a : ℕ} {l : List ℕ} (h : a ∈ l) :
    a ≤ l.foldr (fun x y => max x y) 0 := by
  induction l with
  | nil => cases h
  | cons x xs ih =>
    rcases List.mem_cons.mp h with h1 | h1
    · rw [h1]; exact le_max_left _ _
    · exact le_trans (ih h1) (le_max_right _ _)

theorem id_lt_freshId {r : Row} {rows : List Row} (h : r ∈ rows) : r.id < freshId rows := by
  have h1 : r.id ∈ rows.map (fun r => r.id) := List.mem_map_of_mem _ h
  have h2 := le_foldrMax_of_mem h1
  exact Nat.lt_succ_of_le h2

theorem exceptBindOk {α β : Type} {x : Except PyErr α} {f : α → Except PyErr β} {b : β}
    (h : (x >>= f) = .ok b) : ∃ a, x = .ok a ∧ f a = .ok b := by
  cases x with
  | ok a => exact ⟨a, rfl, h⟩
  | error e => simp [Bind.bind, Except.bind] at h

theorem table_setTable (s : Store) (m : Model) (l : List Row) :
    (s.setTable m l).table m = l := by
  cases m <;> rfl

theorem lookup_map_pyToJ (data : List (String × PyVal)) (k : String) :
    (data.map (fun kv => (kv.1, pyToJ kv.2))).lookup k = (data.lookup k).map pyToJ := by
  induction data with
  | nil => rfl
  | cons kv rest ih =>
    by_cases hk : k = kv.1
    · simp [List.lookup, hk]
    · have hb : (k == kv.1) = false := by
        simpa using hk
      simp [List.lookup, hb, ih]

/-! ## Concrete fixtures used by counterexamples and witnesses -/

/-- All case variants of a character list. -/
def caseVariantsL : List Char → List (List Char)
  | [] => [[]]
  | c :: cs => (caseVariantsL cs).flatMap (fun v => [c.toLower :: v, c.toUpper :: v])

/-- All strings obtained from `s` by flipping the case of its letters. -/
def caseVariants (s : String) : List String :=
  (caseVariantsL s.data).map (fun l => String.mk l)

/-- Two-person collection with heights `"172"` and `"unknown"` (spec §8). -/
def c5Luke : Row := ⟨1, [("name", .vStr "Luke"), ("height", .vStr "172")], []⟩

/-- Companion row with unknown height for the availability scenario. -/
def c5Other : Row := ⟨2, [("name", .vStr "X"), ("height", .vStr "unknown")], []⟩

/-- The store of the availability scenario. -/
def c5Store : Store := { emptyStore with people := [c5Luke, c5Other] }

/-- A person with the larger (nonzero) height. -/
def c3RowA : Row := ⟨1, [("name", .vStr "A"), ("height", .vStr "10")], []⟩

/-- A person whose sanitized height is exactly `0`. -/
def c3RowB : Row := ⟨2, [("name", .vStr "B"), ("height", .vStr "0")], []⟩

/-- The store exhibiting the zero-height extremum mismatch. -/
def c3Store : Store := { emptyStore with people := [c3RowA, c3RowB] }

/-- A one-species store for the missing-id witness. -/
def c7Store : Store := { emptyStore with species := [⟨1, [("name", .vStr "Hutt")], []⟩] }

/-- A creation payload of scalar field assignments (no explicit id). -/
def c8Data : List (String × PyVal) := [("name", .vStr "Tatooine"), ("climate", .vStr "arid")]

/-- A single well-formed film row (integer episode id, parseable date). -/
def c10Film : Row := ⟨1,
  [("title", .vStr "A New Hope"), ("episode_id", .vInt 4),
   ("director", .vStr "George Lucas"), ("producer", .vStr "Gary Kurtz, Rick McCallum"),
   ("release_date", .vStr "1977-05-25")], []⟩

/-- A starship whose manufacturer column is the bare string `"unknown"`. -/
def c4Ship : Row := ⟨1, [("name", .vStr "S"), ("manufacturer", .vStr "unknown")], []⟩

/-- A planet row whose climate is a two-token list. -/
def c4Planet : Row := ⟨1, [("name", .vStr "P"), ("climate", .vStr "arid, temperate")], []⟩

/-! ## Claim theorems -/

/-- **C1** (code bug).  The spec requires every entity type with zero rows to
yield a 200 response with `total_count: 0` and empty downstream statistics,
no extremum raising.  The code instead raises `ValueError` — `max()`/`min()`
of an empty sequence (`max(people, key=…)`, `max(character_counts)`, …) —
which the request boundary converts into a 500 error document, for each of
the six entity types. -/
theorem C1_zero_rows_crash :
    get_statistics "people" emptyStore
      = (⟨500, some (.jObj [("error", .jStr "ValueError")])⟩, emptyStore) ∧
    (get_statistics "films" emptyStore).1.status = 500 ∧
    (get_statistics "planets" emptyStore).1.status = 500 ∧
    (get_statistics "species" emptyStore).1.status = 500 ∧
    (get_statistics "vehicles" emptyStore).1.status = 500 ∧
    (get_statistics "starships" emptyStore).1.status = 500 :=
  ⟨rfl, rfl, rfl, rfl, rfl, rfl⟩

/-- **C2** (confirmed).  The numeric sanitizer returns absent for the
sentinel tokens `unknown`, `n/a`, `none` in every letter case (the code's
membership test is case-sensitive, but any variant then fails `float`
parsing and is caught), for the empty string and for `null`; `"1,234"`
parses to `1234.0` after comma stripping; a malformed string such as
`"abc"` is absent.  Totality of `safe_float` is the never-raises clause. -/
theorem C2_safe_float_sanitizer :
    (∀ s ∈ caseVariants "unknown" ++ caseVariants "n/a" ++ caseVariants "none",
        safe_float (.vStr s) = none) ∧
    safe_float (.vStr "") = none ∧
    safe_float .vNone = none ∧
    safe_float (.vStr "1,234") = some ((1234 : ℚ)) ∧
    safe_float (.vStr "abc") = none := by
  refine ⟨?_, rfl, rfl, rfl, rfl⟩
  set_option maxRecDepth 40000 in decide

/-- Witness for C2 at the concrete case variant `"UNKNOWN"`. -/
theorem C2_safe_float_sanitizer_witness :
    ("UNKNOWN" ∈ caseVariants "unknown" ++ caseVariants "n/a" ++ caseVariants "none") ∧
    safe_float (.vStr "UNKNOWN") = none :=
  ⟨by decide, C2_safe_float_sanitizer.1 "UNKNOWN" (by decide)⟩

/-- **C5** (counterexample).  On the two-row height scenario the
availability value is the string `"1/2 records"`, not `"1/2"` as the claim
states. -/
theorem C5_counterexample :
    jGetAt (get_statistics "people" c5Store).1.body
      ["height_stats", "height_data_availability"] = some (.jStr "1/2 records") ∧
    (JVal.jStr "1/2 records" = JVal.jStr "1/2" → False) := by
  refine ⟨rfl, ?_⟩
  intro h
  exact absurd (JVal.jStr.inj h) (by decide)

/-- **C5** (amended).  A people collection of exactly two rows with heights
`"172"` and `"unknown"` yields `average_height == 172.0` and the
height-data-availability string `"1/2 records"` in a 200 response. -/
theorem C5_availability_scenario :
    (get_statistics "people" c5Store).1.status = 200 ∧
    jGetAt (get_statistics "people" c5Store).1.body
      ["height_stats", "average_height"] = some (.jNum 172) ∧
    jGetAt (get_statistics "people" c5Store).1.body
      ["height_stats", "height_data_availability"] = some (.jStr "1/2 records") :=
  ⟨rfl, rfl, rfl⟩

/-- The dispatch table misses exactly the six known route strings. -/
theorem get_model_class_eq_none {route : String}
    (h : route ∉ ["films", "people", "planets", "species", "vehicles", "starships"]) :
    get_model_class route = none := by
  simp only [List.mem_cons, List.not_mem_nil, or_false, not_or] at h
  obtain ⟨h1, h2, h3, h4, h5, h6⟩ := h
  simp [get_model_class, h1, h2, h3, h4, h5, h6]

/-- **C6** (confirmed).  For every route token outside the six known types,
each of the six endpoint handlers returns 404 with body exactly
`error: Invalid route`, leaving the store unchanged. -/
theorem C6_invalid_route (route : String)
    (h : route ∉ ["films", "people", "planets", "species", "vehicles", "starships"])
    (id : Nat) (data : List (String × PyVal)) (s : Store) :
    get_all route s = (invalidRouteResponse, s) ∧
    get_by_id route id s = (invalidRouteResponse, s) ∧
    create route data s = (invalidRouteResponse, s) ∧
    update route id data s = (invalidRouteResponse, s) ∧
    delete route id s = (invalidRouteResponse, s) ∧
    get_statistics route s = (invalidRouteResponse, s) ∧
    invalidRouteResponse = ⟨404, some (.jObj [("error", .jStr "Invalid route")])⟩ := by
  have hn := get_model_class_eq_none h
  exact ⟨by simp [get_all, hn], by simp [get_by_id, hn], by simp [create, hn],
    by simp [update, hn], by simp [delete, hn], by simp [get_statistics, hn], rfl⟩

/-- Witness for C6 at the concrete route `"droids"`. -/
theorem C6_invalid_route_witness :
    ("droids" ∉ ["films", "people", "planets", "species", "vehicles", "starships"]) ∧
    (get_all "droids" emptyStore = (invalidRouteResponse, emptyStore) ∧
     get_by_id "droids" 1 emptyStore = (invalidRouteResponse, emptyStore) ∧
     create "droids" [] emptyStore = (invalidRouteResponse, emptyStore) ∧
     update "droids" 1 [] emptyStore = (invalidRouteResponse, emptyStore) ∧
     delete "droids" 1 emptyStore = (invalidRouteResponse, emptyStore) ∧
     get_statistics "droids" emptyStore = (invalidRouteResponse, emptyStore) ∧
     invalidRouteResponse = ⟨404, some (.jObj [("error", .jStr "Invalid route")])⟩) :=
  ⟨by decide, C6_invalid_route "droids" (by decide) 1 [] emptyStore⟩

/-- **C7** (confirmed).  For every valid route, `GET /{route}/{id}` with an
id matching no stored row returns 404 with body exactly `error: Not found`,
and the store is returned unchanged. -/
theorem C7_not_found (route : String) (m : Model)
    (hm : get_model_class route = some m) (id : Nat) (s : Store)
    (h : ∀ r ∈ s.table m, r.id ≠ id) :
    get_by_id route id s = (⟨404, some (.jObj [("error", .jStr "Not found")])⟩, s) := by
  have hf : (s.table m).find? (fun r => r.id = id) = none := by
    rw [List.find?_eq_none]
    intro r hr
    simpa using h r hr
  simp [get_by_id, hm, hf, notFoundResponse]

/-- Witness for C7: `GET /species/42` on a store whose only species row has
id 1. -/
theorem C7_not_found_witness :
    (get_model_class "species" = some Model.species ∧
      ∀ r ∈ c7Store.table Model.species, r.id ≠ 42) ∧
    get_by_id "species" 42 c7Store
      = (⟨404, some (.jObj [("error", .jStr "Not found")])⟩, c7Store) :=
  ⟨⟨by decide, by decide⟩,
    C7_not_found "species" Model.species (by decide) 42 c7Store (by decide)⟩

/-- **C9** (confirmed).  The statistics handler performs no write: whatever
the route and the store contents (including the error paths), the store
component of the result is exactly the input store — mirroring the source,
whose statistics computation contains no `add`/`delete`/`commit`. -/
theorem C9_statistics_read_only (route : String) (s : Store) :
    (get_statistics route s).2 = s := by
  rcases hm : get_model_class route with _ | m
  · simp [get_statistics, hm]
  · rcases he : statsEntries route s ((s.table m).length) with e | entries
    · simp [get_statistics, hm, he]
    · simp [get_statistics, hm, he]

/-- **C3** (counterexample).  On a people collection with heights `"10"`
and `"0"`, the reported minimum height is `0` (owned by row `B`) but the
row named as the minimum owner is `A`, whose sanitized height is `10`:
`safe_float(x.height) or float("inf")` treats the present value `0` as
falsy, so the zero-height row can never be selected as the owner. -/
theorem C3_counterexample :
    jGetAt (get_statistics "people" c3Store).1.body
      ["height_stats", "shortest_person", "name"] = some (.jStr "A") ∧
    jGetAt (get_statistics "people" c3Store).1.body
      ["height_stats", "shortest_person", "height"] = some (.jNum 0) ∧
    c3Store.people = [c3RowA, c3RowB] ∧
    c3RowA.get "name" = .vStr "A" ∧
    safe_float (c3RowA.get "height") = some 10 ∧
    c3RowB.get "name" = .vStr "B" ∧
    safe_float (c3RowB.get "height") = some 0 ∧
    ((10 : ℚ) = 0 → False) :=
  ⟨rfl, rfl, rfl, rfl, by decide, rfl, by decide, by decide⟩

/-- **C3** (amended).  For every collection and numeric attribute in which
no row sanitizes to exactly `0` and at least one row has a positive present
value, each extremum entry of the numeric statistics block reports the name
of a row whose sanitized value equals the reported extreme value (the
reported extremes being the true maximum and minimum of the present
values). -/
theorem C3_extremum_owner (rows : List Row) (field maxL minL valL avgL : String)
    (h0 : ∀ r ∈ rows, safe_float (r.get field) ≠ some 0)
    (hpos : ∃ r ∈ rows, ∃ v : ℚ, safe_float (r.get field) = some v ∧ 0 < v) :
    ∃ rmax rmin, rmax ∈ rows ∧ rmin ∈ rows ∧ ∃ vmax vmin : ℚ,
      safe_float (rmax.get field) = some vmax ∧
      safe_float (rmin.get field) = some vmin ∧
      (∀ r ∈ rows, ∀ v : ℚ, safe_float (r.get field) = some v → vmin ≤ v ∧ v ≤ vmax) ∧
      numBlock rows field maxL minL valL avgL = .ok [
        (maxL, .jObj [("name", pyToJ (rmax.get "name")), (valL, .jNum vmax)]),
        (minL, .jObj [("name", pyToJ (rmin.get "name")), (valL, .jNum vmin)]),
        (avgL, avgEntry ((rows.map (fun r => safe_float (r.get field))).filterMap id))] := by
  obtain ⟨r0, hr0, v0, hv0, hv0pos⟩ := hpos
  have hne : rows ≠ [] := by
    intro h
    rw [h] at hr0
    cases hr0
  obtain ⟨rmax, hmax⟩ := pyMaxByList_isSome (fun x => pyOrQ (safe_float (x.get field)) 0) hne
  obtain ⟨hmaxMem, hmaxUb⟩ := pyMaxByList_spec hmax
  obtain ⟨rmin, hmin⟩ := pyMinByList_isSome (fun x => pyOrTop (safe_float (x.get field))) hne
  obtain ⟨hminMem, hminLb⟩ := pyMinByList_spec hmin
  have hk0 : pyOrQ (safe_float (r0.get field)) 0 = v0 := by
    rw [hv0]
    simp [pyOrQ, ne_of_gt hv0pos]
  have hkmaxpos : 0 < pyOrQ (safe_float (rmax.get field)) 0 := by
    have h1 := hmaxUb r0 hr0
    rw [hk0] at h1
    exact lt_of_lt_of_le hv0pos h1
  have hmaxval : safe_float (rmax.get field) = some (pyOrQ (safe_float (rmax.get field)) 0) := by
    rcases hsf : safe_float (rmax.get field) with _ | x
    · rw [hsf] at hkmaxpos
      simp [pyOrQ] at hkmaxpos
    · rw [hsf] at hkmaxpos
      by_cases hx : x = 0
      · rw [hx] at hkmaxpos
        simp [pyOrQ] at hkmaxpos
      · simp [pyOrQ, hx]
  have hk0t : pyOrTop (safe_float (r0.get field)) = ((v0 : ℚ) : WithTop ℚ) := by
    rw [hv0]
    simp [pyOrTop, ne_of_gt hv0pos]
  have hminlt : pyOrTop (safe_float (rmin.get field)) < ⊤ := by
    have h1 := hminLb r0 hr0
    rw [hk0t] at h1
    exact lt_of_le_of_lt h1 (WithTop.coe_lt_top v0)
  have hminval : ∃ vmin : ℚ, safe_float (rmin.get field) = some vmin ∧
      pyOrTop (safe_float (rmin.get field)) = ((vmin : ℚ) : WithTop ℚ) := by
    rcases hsf : safe_float (rmin.get field) with _ | x
    · rw [hsf] at hminlt
      simp [pyOrTop] at hminlt
    · by_cases hx : x = 0
      · exact absurd (by rw [hsf, hx]) (h0 rmin hminMem)
      · exact ⟨x, rfl, by simp [pyOrTop, hx]⟩
  obtain ⟨vmin, hvmin, hkmin⟩ := hminval
  have hbound : ∀ r ∈ rows, ∀ v : ℚ, safe_float (r.get field) = some v →
      vmin ≤ v ∧ v ≤ pyOrQ (safe_float (rmax.get field)) 0 := by
    intro r hr v hv
    have hvne : v ≠ 0 := by
      intro h
      exact h0 r hr (by rw [hv, h])
    constructor
    · have h1 := hminLb r hr
      rw [hkmin, hv] at h1
      simp only [pyOrTop, hvne, if_false] at h1
      exact WithTop.coe_le_coe.mp h1
    · have h1 := hmaxUb r hr
      rw [hv] at h1
      simpa [pyOrQ, hvne] using h1
  have hmemmax : pyOrQ (safe_float (rmax.get field)) 0
      ∈ (rows.map (fun r => safe_float (r.get field))).filterMap id := by
    rw [List.mem_filterMap]
    exact ⟨safe_float (rmax.get field), List.mem_map_of_mem _ hmaxMem, hmaxval⟩
  have hmemmin : vmin ∈ (rows.map (fun r => safe_float (r.get field))).filterMap id := by
    rw [List.mem_filterMap]
    exact ⟨safe_float (rmin.get field), List.mem_map_of_mem _ hminMem, hvmin⟩
  have hvalelem : ∀ x ∈ (rows.map (fun r => safe_float (r.get field))).filterMap id,
      ∃ r ∈ rows, safe_float (r.get field) = some x := by
    intro x hx
    rw [List.mem_filterMap] at hx
    obtain ⟨o, ho, hox⟩ := hx
    rw [List.mem_map] at ho
    obtain ⟨r, hr, hro⟩ := ho
    exact ⟨r, hr, hro.trans hox⟩
  have hmaxlist : pyMaxList ((rows.map (fun r => safe_float (r.get field))).filterMap id)
      = some (pyOrQ (safe_float (rmax.get field)) 0) := by
    refine pyMaxList_eq_some hmemmax ?_
    intro x hx
    obtain ⟨r, hr, hrx⟩ := hvalelem x hx
    exact (hbound r hr x hrx).2
  have hminlist : pyMinList ((rows.map (fun r => safe_float (r.get field))).filterMap id)
      = some vmin := by
    refine pyMinList_eq_some hmemmin ?_
    intro x hx
    obtain ⟨r, hr, hrx⟩ := hvalelem x hx
    exact (hbound r hr x hrx).1
  refine ⟨rmax, rmin, hmaxMem, hminMem, pyOrQ (safe_float (rmax.get field)) 0, vmin,
    hmaxval, hvmin, hbound, ?_⟩
  simp only [numBlock, pyMaxBy, pyMinBy, hmax, hmin, hmaxlist, hminlist, jOptNum,
    Bind.bind, Except.bind, pure, Except.pure]

/-- Witness for C3 on a one-row collection with height `"10"`. -/
theorem C3_extremum_owner_witness :
    ((∀ r ∈ [c3RowA], safe_float (r.get "height") ≠ some 0) ∧
      (∃ r ∈ [c3RowA], ∃ v : ℚ, safe_float (r.get "height") = some v ∧ 0 < v)) ∧
    (∃ rmax rmin, rmax ∈ [c3RowA] ∧ rmin ∈ [c3RowA] ∧ ∃ vmax vmin : ℚ,
      safe_float (rmax.get "height") = some vmax ∧
      safe_float (rmin.get "height") = some vmin ∧
      (∀ r ∈ [c3RowA], ∀ v : ℚ, safe_float (r.get "height") = some v →
        vmin ≤ v ∧ v ≤ vmax) ∧
      numBlock [c3RowA] "height" "tallest_person" "shortest_person" "height" "average_height"
        = .ok [
        ("tallest_person", .jObj [("name", pyToJ (rmax.get "name")), ("height", .jNum vmax)]),
        ("shortest_person", .jObj [("name", pyToJ (rmin.get "name")), ("height", .jNum vmin)]),
        ("average_height",
          avgEntry (([c3RowA].map (fun r => safe_float (r.get "height"))).filterMap id))]) :=
  ⟨⟨by decide, ⟨c3RowA, by decide, 10, by decide, by decide⟩⟩,
    C3_extremum_owner [c3RowA] "height" "tallest_person" "shortest_person" "height"
      "average_height" (by decide) ⟨c3RowA, by decide, 10, by decide, by decide⟩⟩

/-- Trimmed comma-separated tokens of a raw string — no per-token
filtering of any kind (reference description for the splitter theorems). -/
def strTokens (s : String) : List String :=
  (splitChar ',' s.data).map (fun cs => pyStripStr (String.mk cs))

/-- Per-row token contribution of the sentinel-checked splitters
(climates, terrains): nothing for a whole-field sentinel, otherwise all
trimmed tokens, sentinels included. -/
def sentTokens (v : PyVal) : List String :=
  if v.isSentinel then []
  else
    match v with
    | .vStr s => strTokens s
    | _ => []

/-- Per-row token contribution of the truthiness-checked splitters
(manufacturers, producers): nothing for a falsy field, otherwise all
trimmed tokens — including a whole-field `"unknown"`. -/
def truthyTokens (v : PyVal) : List String :=
  if v.truthy then
    match v with
    | .vStr s => strTokens s
    | _ => []
  else []

/-- **C4** (counterexample).  A bare `"unknown"` manufacturer yields the
token list `["unknown"]`, not the empty sequence, and a color list
`"blue, unknown"` keeps the sentinel element `"unknown"` — the splitters
filter only at whole-field level. -/
theorem C4_counterexample :
    splitFieldTruthy [c4Ship] "manufacturer" = .ok ["unknown"] ∧
    ((["unknown"] : List String) = [] → False) ∧
    parse_colors (.vStr "blue, unknown") = .ok ["blue", "unknown"] ∧
    ("unknown" ∈ ["blue", "unknown"]) ∧
    ("unknown" ∈ sentinelStrs) :=
  ⟨by decide, by decide, by decide, by decide, by decide⟩

/-- `Except.ok a >>= g` computes to `g a`. -/
theorem okBind {α β : Type} (a : α) (g : α → Except PyErr β) :
    (Except.ok a >>= g) = g a := rfl

/-- Accumulator-generalised computation of the sentinel-checked splitter. -/
theorem splitFieldSentinel_acc (field : String) :
    ∀ (rows : List Row) (acc : List String),
      (∀ r ∈ rows, ∃ s, r.get field = PyVal.vStr s) →
      List.foldlM (fun acc r => do
          let toks ← (r.get field).split ','
          if (r.get field).isSentinel then pure acc
          else pure (acc ++ toks.map pyStripStr)) acc rows
      = .ok (acc ++ rows.flatMap (fun r => sentTokens (r.get field))) := by
  intro rows
  induction rows with
  | nil =>
    intro acc h
    simp [pure, Except.pure]
  | cons r rs ih =>
    intro acc h
    obtain ⟨s, hs⟩ := h r (List.mem_cons_self r rs)
    have hrest : ∀ r' ∈ rs, ∃ s', r'.get field = PyVal.vStr s' := by
      intro r' hr'
      exact h r' (List.mem_cons_of_mem r hr')
    rw [List.foldlM_cons]
    have hstep : (do
          let toks ← (r.get field).split ','
          if (r.get field).isSentinel then pure acc
          else pure (acc ++ toks.map pyStripStr)
          : Except PyErr (List String))
        = Except.ok (acc ++ sentTokens (r.get field)) := by
      by_cases hsent : (r.get field).isSentinel
      · simp [hs, PyVal.split, Bind.bind, Except.bind, sentTokens,
          hs ▸ hsent, pure, Except.pure]
      · simp [hs, PyVal.split, Bind.bind, Except.bind, sentTokens,
          hs ▸ hsent, pure, Except.pure, strTokens, List.map_map, Function.comp]
    rw [hstep, okBind, ih _ hrest]
    simp [List.append_assoc]

/-- Accumulator-generalised computation of the truthiness-checked splitter. -/
theorem splitFieldTruthy_acc (field : String) :
    ∀ (rows : List Row) (acc : List String),
      (∀ r ∈ rows, (∃ s, r.get field = PyVal.vStr s) ∨ r.get field = PyVal.vNone) →
      List.foldlM (fun acc r =>
          if (r.get field).truthy then do
            let toks ← (r.get field).split ','
            pure (acc ++ toks.map pyStripStr)
          else pure acc) acc rows
      = .ok (acc ++ rows.flatMap (fun r => truthyTokens (r.get field))) := by
  intro rows
  induction rows with
  | nil =>
    intro acc h
    simp [pure, Except.pure]
  | cons r rs ih =>
    intro acc h
    have hrest : ∀ r' ∈ rs, (∃ s', r'.get field = PyVal.vStr s') ∨ r'.get field = PyVal.vNone := by
      intro r' hr'
      exact h r' (List.mem_cons_of_mem r hr')
    rw [List.foldlM_cons]
    have hstep : ((if (r.get field).truthy then do
            let toks ← (r.get field).split ','
            pure (acc ++ toks.map pyStripStr)
          else pure acc)
          : Except PyErr (List String))
        = Except.ok (acc ++ truthyTokens (r.get field)) := by
      rcases h r (List.mem_cons_self r rs) with ⟨s, hs⟩ | hn
      · by_cases htr : (r.get field).truthy
        · simp [hs, PyVal.split, Bind.bind, Except.bind, truthyTokens,
            hs ▸ htr, pure, Except.pure, strTokens, List.map_map, Function.comp]
        · simp [hs, truthyTokens, hs ▸ htr, pure, Except.pure]
      · simp [hn, truthyTokens, PyVal.truthy, pure, Except.pure]
    rw [hstep, okBind, ih _ hrest]
    simp [List.append_assoc]

/-- **C4** (amended).  Each multi-value splitter returns exactly the trimmed
tokens of each surviving field, with no per-token sentinel filtering:
sentinel tokens appearing as elements of a list are kept.  For the
sentinel-checked splitters (climates, terrains) a whole-field sentinel
contributes nothing; the manufacturers/producers splitter skips only falsy
fields, so a bare `"unknown"` manufacturer contributes the token
`"unknown"`; `parse_colors` yields the empty list exactly for a falsy or
whole-field sentinel value. -/
theorem C4_splitter :
    (∀ (rows : List Row) (field : String),
      (∀ r ∈ rows, ∃ s, r.get field = PyVal.vStr s) →
      splitFieldSentinel rows field
        = .ok (rows.flatMap (fun r => sentTokens (r.get field)))) ∧
    (∀ (rows : List Row) (field : String),
      (∀ r ∈ rows, (∃ s, r.get field = PyVal.vStr s) ∨ r.get field = PyVal.vNone) →
      splitFieldTruthy rows field
        = .ok (rows.flatMap (fun r => truthyTokens (r.get field)))) ∧
    (∀ s : String,
      parse_colors (.vStr s)
        = .ok (if (PyVal.vStr s).truthy && !(PyVal.vStr s).isSentinel
            then strTokens s else [])) := by
  refine ⟨?_, ?_, ?_⟩
  · intro rows field h
    have := splitFieldSentinel_acc field rows [] h
    simpa [splitFieldSentinel] using this
  · intro rows field h
    have := splitFieldTruthy_acc field rows [] h
    simpa [splitFieldTruthy] using this
  · intro s
    by_cases htr : (PyVal.vStr s).truthy
    · by_cases hsent : (PyVal.vStr s).isSentinel
      · simp [parse_colors, htr, hsent]
      · simp only [parse_colors, htr, hsent, PyVal.split, Bind.bind, Except.bind,
          Bool.not_true, Bool.or_false, Bool.and_true, if_false, if_true,
          Bool.true_and, Bool.not_false, Bool.false_eq_true, strTokens,
          List.map_map]
        rfl
    · have hse : s = "" := by
        have hie : s.isEmpty = true := by
          simpa [PyVal.truthy] using htr
        exact (String.isEmpty_iff s).mp hie
      subst hse
      decide

/-- Witness for C4 at a two-token climate, a bare-`"unknown"` manufacturer,
and the color list `"blue, unknown"`. -/
theorem C4_splitter_witness :
    ((∀ r ∈ [c4Planet], ∃ s, r.get "climate" = PyVal.vStr s) ∧
      (∀ r ∈ [c4Ship], (∃ s, r.get "manufacturer" = PyVal.vStr s) ∨
        r.get "manufacturer" = PyVal.vNone)) ∧
    splitFieldSentinel [c4Planet] "climate"
      = .ok ([c4Planet].flatMap (fun r => sentTokens (r.get "climate"))) ∧
    splitFieldTruthy [c4Ship] "manufacturer"
      = .ok ([c4Ship].flatMap (fun r => truthyTokens (r.get "manufacturer"))) ∧
    parse_colors (.vStr "blue, unknown")
      = .ok (if (PyVal.vStr "blue, unknown").truthy
            && !(PyVal.vStr "blue, unknown").isSentinel
          then strTokens "blue, unknown" else []) :=
  ⟨⟨fun r hr => ⟨"arid, temperate", by cases hr with
      | head => rfl
      | tail _ h => cases h⟩,
    fun r hr => Or.inl ⟨"unknown", by cases hr with
      | head => rfl
      | tail _ h => cases h⟩⟩,
    C4_splitter.1 [c4Planet] "climate"
      (fun r hr => ⟨"arid, temperate", by cases hr with
        | head => rfl
        | tail _ h => cases h⟩),
    C4_splitter.2.1 [c4Ship] "manufacturer"
      (fun r hr => Or.inl ⟨"unknown", by cases hr with
        | head => rfl
        | tail _ h => cases h⟩),
    C4_splitter.2.2 "blue, unknown"⟩

/-- Association-list lookup skips a non-matching head. -/
theorem lookup_cons_ne {β : Type} (k k' : String) (v : β) (l : List (String × β))
    (h : (k == k') = false) : List.lookup k ((k', v) :: l) = List.lookup k l := by
  simp [List.lookup, h]

/-- **C8** (confirmed).  Creating an entity via `POST /{route}` with a JSON
body of scalar field assignments answers 201 carrying the fresh id, and a
subsequent `GET /{route}/{id}` at that id answers 200 with a document whose
scalar fields equal the submitted values (the body must not assign `id`,
which the autoincrementing store reserves). -/
theorem C8_round_trip (route : String) (m : Model) (hm : get_model_class route = some m)
    (data : List (String × PyVal)) (hid : data.lookup "id" = none) (s : Store) :
    (create route data s).1.status = 201 ∧
    jGetAt (create route data s).1.body ["id"]
      = some (.jNum ((freshId (s.table m) : ℕ) : ℚ)) ∧
    (get_by_id route (freshId (s.table m)) (create route data s).2).1.status = 200 ∧
    (∀ k v, data.lookup k = some v →
      jGetAt (get_by_id route (freshId (s.table m)) (create route data s).2).1.body [k]
        = some (pyToJ v)) := by
  have hcr : create route data s
      = (⟨201, some (to_dict ⟨freshId (s.table m), data, []⟩)⟩,
         s.setTable m (s.table m ++ [⟨freshId (s.table m), data, []⟩])) := by
    simp [create, hm]
  have hfindnil : (s.table m).find? (fun r => r.id = freshId (s.table m)) = none := by
    rw [List.find?_eq_none]
    intro r hr
    simpa using Nat.ne_of_lt (id_lt_freshId hr)
  have hfind : (s.table m ++ [(⟨freshId (s.table m), data, []⟩ : Row)]).find?
      (fun r => r.id = freshId (s.table m)) = some ⟨freshId (s.table m), data, []⟩ := by
    rw [List.find?_append, hfindnil]
    simp
  have hget : get_by_id route (freshId (s.table m)) (create route data s).2
      = (⟨200, some (to_dict ⟨freshId (s.table m), data, []⟩)⟩,
         s.setTable m (s.table m ++ [⟨freshId (s.table m), data, []⟩])) := by
    rw [hcr]
    simp only [get_by_id, hm]
    rw [table_setTable, hfind]
  refine ⟨by rw [hcr], ?_, by rw [hget], ?_⟩
  · rw [hcr]
    simp [jGetAt, jGet, to_dict, List.lookup]
  · intro k v hkv
    have hkid : (k == "id") = false := by
      by_cases hk : k = "id"
      · subst hk
        rw [hkv] at hid
        cases hid
      · simpa using hk
    rw [hget]
    simp only [jGetAt, jGet, to_dict, List.map_nil, List.append_nil, List.cons_append]
    rw [lookup_cons_ne _ _ _ _ hkid, lookup_map_pyToJ, hkv]
    rfl

/-- Witness for C8: posting a planet document to the empty store and
reading it back. -/
theorem C8_round_trip_witness :
    (get_model_class "planets" = some Model.planet ∧ c8Data.lookup "id" = none) ∧
    ((create "planets" c8Data emptyStore).1.status = 201 ∧
     jGetAt (create "planets" c8Data emptyStore).1.body ["id"]
       = some (.jNum ((freshId (emptyStore.table Model.planet) : ℕ) : ℚ)) ∧
     (get_by_id "planets" (freshId (emptyStore.table Model.planet))
        (create "planets" c8Data emptyStore).2).1.status = 200 ∧
     (∀ k v, c8Data.lookup k = some v →
       jGetAt (get_by_id "planets" (freshId (emptyStore.table Model.planet))
           (create "planets" c8Data emptyStore).2).1.body [k]
         = some (pyToJ v))) :=
  ⟨⟨by decide, by decide⟩,
    C8_round_trip "planets" Model.planet (by decide) c8Data (by decide) emptyStore⟩

/-- **C10** (confirmed).  `safe_float` returns absent on every integer input
(the `.replace` attribute access raises `AttributeError`, which is caught);
since `Film.episode_id` is an `Integer` column (so reads as an integer or
`NULL`), the films `episode_stats` block always reports
`total_episodes == 0` with both extremes `None`, whatever the stored films,
and it is the `episode_stats` entry of any successful films statistics
document. -/
theorem C10_films_episode_stats (films : List Row)
    (h : ∀ f ∈ films,
      (∃ n : ℤ, f.get "episode_id" = .vInt n) ∨ f.get "episode_id" = .vNone) :
    (∀ n : ℤ, safe_float (.vInt n) = none) ∧
    episodeStatsOf films = .jObj [
      ("total_episodes", .jNum 0),
      ("earliest_episode", .jNull),
      ("latest_episode", .jNull)] ∧
    (∀ entries, filmsBranch films = .ok entries →
      entries.lookup "episode_stats" = some (episodeStatsOf films)) := by
  have hsf : ∀ n : ℤ, safe_float (.vInt n) = none := fun n => rfl
  have hall : ∀ f ∈ films, safe_float (f.get "episode_id") = none := by
    intro f hf
    rcases h f hf with ⟨n, hn⟩ | hn
    · rw [hn]
      exact hsf n
    · rw [hn]
      rfl
  have hvalidAll : ∀ fs : List Row, (∀ f ∈ fs, safe_float (f.get "episode_id") = none) →
      (fs.map (fun f => safe_float (f.get "episode_id"))).filterMap id = [] := by
    intro fs
    induction fs with
    | nil => intro _; rfl
    | cons f fs ih =>
      intro hne
      rw [List.map_cons, hne f (List.mem_cons_self f fs)]
      simpa using ih (fun f' hf' => hne f' (List.mem_cons_of_mem f hf'))
  have hvalid := hvalidAll films hall
  refine ⟨hsf, ?_, ?_⟩
  · simp [episodeStatsOf, hvalid, pyMinList, pyMaxList, pyMinByList, pyMaxByList, jOptNum]
  · intro entries hent
    unfold filmsBranch at hent
    obtain ⟨years, hy, hent⟩ := exceptBindOk hent
    obtain ⟨producers, hp, hent⟩ := exceptBindOk hent
    obtain ⟨chars, hc, hent⟩ := exceptBindOk hent
    obtain ⟨plans, hpl, hent⟩ := exceptBindOk hent
    obtain ⟨specs, hsp, hent⟩ := exceptBindOk hent
    obtain ⟨vehs, hv, hent⟩ := exceptBindOk hent
    obtain ⟨ships, hsh, hent⟩ := exceptBindOk hent
    obtain ⟨mc, hmc, hent⟩ := exceptBindOk hent
    obtain ⟨mp, hmp, hent⟩ := exceptBindOk hent
    obtain ⟨ms, hms, hent⟩ := exceptBindOk hent
    obtain ⟨mv, hmv, hent⟩ := exceptBindOk hent
    obtain ⟨msh, hmsh, hent⟩ := exceptBindOk hent
    cases hent
    rfl

/-- Witness for C10 on a one-film store with `episode_id = 4`. -/
theorem C10_films_episode_stats_witness :
    (∀ f ∈ [c10Film],
      (∃ n : ℤ, f.get "episode_id" = .vInt n) ∨ f.get "episode_id" = .vNone) ∧
    ((∀ n : ℤ, safe_float (.vInt n) = none) ∧
     episodeStatsOf [c10Film] = .jObj [
       ("total_episodes", .jNum 0),
       ("earliest_episode", .jNull),
       ("latest_episode", .jNull)] ∧
     (∀ entries, filmsBranch [c10Film] = .ok entries →
       entries.lookup "episode_stats" = some (episodeStatsOf [c10Film]))) :=
  ⟨fun f hf => Or.inl ⟨4, by
      cases hf with
      | head => rfl
      | tail _ hmem => cases hmem⟩,
    C10_films_episode_stats [c10Film] (fun f hf => Or.inl ⟨4, by
      cases hf with
      | head => rfl
      | tail _ hmem => cases hmem⟩)⟩

end Main

end SWApi
